import Mathlib

/-!
Verification development for the `pygento` scripts of the ImageResizeAI
repository: a shallow embedding in Lean 4 of the cache-key hashing, the
operation-polling loops, the asset download/persistence logic
(`agento_video.py`, `agento_image.py`) and the mock Veo API server
(`mock_veo_server.py`), together with theorems settling the frozen claims.

Modelling conventions:
 - the filesystem is a map `String → Option (List Nat)` (path to bytes);
   file writes are returned explicitly as `(path, bytes)` pairs;
 - wall-clock time is a `Nat` (seconds); a polling run is driven by an
   abstract elapsed-time function `el : Nat → Nat` giving the elapsed
   seconds at the start of iteration `k`;
 - HTTP exchanges are parameters: a poll run receives the response of the
   k-th GET as `responses k`, a download receives `fetch : String → HttpBytes`;
 - Python exceptions become `Except Err`; `requests.Response.raise_for_status`
   raises exactly for status codes 400–599 (per the requests library);
 - `hashlib.md5(...).hexdigest()` is an abstract parameter
   `md5hex : List Nat → String` carried in the environment (the digest
   function itself is an external library; the claims only concern how its
   results are combined);
 - all character-level string processing is implemented over `List Char`
   so that every definition reduces in the kernel.
-/

/-- Fuel-indexed decimal conversion; `fuel` only bounds the recursion depth
(any `fuel > n` is enough) so that the definition is structural and reduces
in the kernel. -/
def natToCharsAux : Nat → Nat → List Char
  | 0, _ => []
  | fuel + 1, n =>
    if n < 10 then [Char.ofNat (48 + n)]
    else natToCharsAux fuel (n / 10) ++ [Char.ofNat (48 + n % 10)]

/-- Decimal digit characters of a natural number, most significant first.
Models Python's `f"{n}"` / `str(n)` for a non-negative integer. -/
def natToChars (n : Nat) : List Char :=
  natToCharsAux (n + 1) n

/-- Decimal string of a natural number. -/
def natToStr (n : Nat) : String :=
  String.mk (natToChars n)

/-- UTF-8 encoding of one character (code point to byte list).
Models Python's `str.encode()` at the level of a single character. -/
def utf8EncodeChar (c : Char) : List Nat :=
  let n := c.toNat
  if n < 0x80 then [n]
  else if n < 0x800 then [0xC0 + n / 64, 0x80 + n % 64]
  else if n < 0x10000 then [0xE0 + n / 4096, 0x80 + (n / 64) % 64, 0x80 + n % 64]
  else [0xF0 + n / 262144, 0x80 + (n / 4096) % 64, 0x80 + (n / 64) % 64, 0x80 + n % 64]

/-- UTF-8 bytes of a string. Models Python's `str.encode()` (default UTF-8). -/
def strBytes (s : String) : List Nat :=
  s.toList.flatMap utf8EncodeChar

/-- ASCII lower-casing of one character (A–Z to a–z, all else unchanged). -/
def asciiLowerChar (c : Char) : Char :=
  if 65 ≤ c.toNat ∧ c.toNat ≤ 90 then Char.ofNat (c.toNat + 32) else c

/-- Lower-case a character list. Models Python's `str.lower()`; Python also
lower-cases cased non-ASCII letters, which this ASCII model leaves unchanged
(such characters remain word characters either way). -/
def lowerChars (l : List Char) : List Char :=
  l.map asciiLowerChar

/-- Remove leading and trailing `'_'` characters. Models `str.strip('_')`. -/
def stripUnderscores (l : List Char) : List Char :=
  ((l.dropWhile (fun c => c = '_')).reverse.dropWhile (fun c => c = '_')).reverse

/-- Collapse each run of consecutive underscores to a single underscore.
Models `re.sub(r'_+', '_', s)`. -/
def collapseUnderscores : List Char → List Char
  | [] => []
  | [c] => [c]
  | c1 :: c2 :: rest =>
    if c1 = '_' ∧ c2 = '_' then collapseUnderscores (c2 :: rest)
    else c1 :: collapseUnderscores (c2 :: rest)

/-- Drop trailing `'/'` characters of a path string (as `PurePath` ignores
trailing slashes when computing the final component). -/
def dropTrailingSlashes (l : List Char) : List Char :=
  (l.reverse.dropWhile (fun c => c = '/')).reverse

/-- Final path component: the part after the last `'/'`, trailing slashes
ignored. Models Python's `PurePosixPath(s).name`. -/
def pathNameChars (l : List Char) : List Char :=
  ((dropTrailingSlashes l).reverse.takeWhile (fun c => c ≠ '/')).reverse

/-- Final path component of a path string. Models `Path(s).name`. -/
def pathName (s : String) : String :=
  String.mk (pathNameChars s.toList)

/-- Stem of a path: the final component without its last suffix; a name whose
only dot is at position 0 or at the very end keeps the dot (CPython's
`PurePath.stem` rule `0 < i < len(name) - 1`). Models `Path(s).stem`. -/
def pathStemChars (l : List Char) : List Char :=
  let n := pathNameChars l
  let r := n.reverse
  let pre := r.takeWhile (fun c => c ≠ '.')
  if pre.length = r.length then n
  else
    let post := r.drop (pre.length + 1)
    if pre ≠ [] ∧ post ≠ [] then post.reverse else n

/-- Leading part check over character lists (used for scheme / path tests). -/
def charsStartWith (p l : List Char) : Bool :=
  List.isPrefixOf p l

/-- Remainder of an `http://` or `https://` URL after its scheme marker, or
`none` when the string is not such a URL. The scheme comparison is
case-insensitive, as `urllib.parse.urlparse` lower-cases the scheme. -/
def splitUrlScheme (l : List Char) : Option (List Char) :=
  let low := lowerChars l
  if charsStartWith "https://".toList low then some (l.drop 8)
  else if charsStartWith "http://".toList low then some (l.drop 7)
  else none

/-- Path component of an `http(s)` URL: everything from the first `'/'` after
the host up to the first `'?'` or `'#'`. Models `urllib.parse.urlparse(s).path`
for standard `http(s)://host/path` URLs. -/
def urlPathChars (rest : List Char) : List Char :=
  (rest.dropWhile (fun c => c ≠ '/')).takeWhile (fun c => c ≠ '?' ∧ c ≠ '#')

/-- Containment of a character-list pattern inside a character list. -/
def charsContain (pat : List Char) : List Char → Bool
  | [] => List.isPrefixOf pat []
  | c :: rest => List.isPrefixOf pat (c :: rest) || charsContain pat rest

/-- Substring test on strings (models Python's `sub in s`). -/
def strContains (s sub : String) : Bool :=
  charsContain sub.toList s.toList

/-- Drop a trailing run of `'/'` characters from a string.
Models Python's `s.rstrip('/')`. -/
def rstripSlash (s : String) : String :=
  String.mk ((s.toList.reverse.dropWhile (fun c => c = '/')).reverse)

/-- Drop leading `'/'` characters from a string. Models `s.lstrip('/')`. -/
def lstripSlash (s : String) : String :=
  String.mk (s.toList.dropWhile (fun c => c = '/'))

/-- ASCII whitespace strip on both ends. Models Python's `str.strip()` for
ASCII whitespace (space, tab, newline, carriage return, form feed, vtab). -/
def pyStrip (s : String) : String :=
  let ws := fun (c : Char) => c.toNat = 32 ∨ (9 ≤ c.toNat ∧ c.toNat ≤ 13)
  String.mk (((s.toList.dropWhile (fun c => decide (ws c))).reverse.dropWhile
    (fun c => decide (ws c))).reverse)

/-- Join a list of strings with a separator. Models `sep.join(xs)`. -/
def joinWith (sep : String) (xs : List String) : String :=
  match xs with
  | [] => ""
  | x :: rest => rest.foldl (fun acc y => acc ++ sep ++ y) x

deriving instance DecidableEq for Except

/-- Python exception kinds raised by the embedded code. -/
inductive Err
  | fileNotFound (msg : String)
  | runtime (msg : String)
  | requestException (msg : String)
deriving DecidableEq, Repr

/-- An HTTP response carrying raw bytes: final status code and body.
The `requests` library has already followed any redirect chain, so `status`
is the status of the final response. -/
structure HttpBytes where
  status : Nat
  body : List Nat
deriving DecidableEq, Repr

/-- An HTTP response whose body has been parsed as JSON of type `α`. -/
structure HttpJson (α : Type) where
  status : Nat
  data : α
deriving DecidableEq, Repr

/-- Message used for the `requests.HTTPError` raised by
`Response.raise_for_status` (the precise Python text is immaterial to every
claim; only the exception class and the status range matter). -/
def requestsErrorMessage (status : Nat) : String :=
  "HTTP error " ++ natToStr status

/-- Whether `Response.raise_for_status` raises: the requests library raises
exactly for client errors (4xx) and server errors (5xx). -/
def raiseForStatusFails (status : Nat) : Bool :=
  decide (400 ≤ status ∧ status < 600)

/-- Environment of `GeminiVideoGenerator`: constructor arguments plus the
ambient filesystem and the external `hashlib.md5(...).hexdigest()` function. -/
structure VEnv where
  apiKey : String
  basePath : String
  baseUrl : String
  fs : String → Option (List Nat)
  md5hex : List Nat → String

/-- The video directory `self.video_dir = base_path / 'pub' / 'media' / 'video'`
(agento_video.py line 38). -/
def videoDirPath (basePath : String) : String :=
  basePath ++ "/pub/media/video"

/-- Cached-video filename `f'veo_{cache_key}.mp4'` (agento_video.py
lines 140 and 228). -/
def videoFileName (cache_key : String) : String :=
  "veo_" ++ cache_key ++ ".mp4"

/-- Full path of the video file stored for a cache key. -/
def videoSavePath (basePath cache_key : String) : String :=
  videoDirPath basePath ++ "/" ++ videoFileName cache_key

/-- GeminiVideoGenerator.generate_cache_key (agento_video.py lines 106–128):
read the image file, hash its bytes with MD5, then MD5 the string
`f"{image_hash}:{prompt}:{aspect_ratio}"`. A missing file raises
`FileNotFoundError(f"Image not found: {image_path}")`. -/
def generate_cache_key (env : VEnv) (image_path prompt aspect : String) :
    Except Err String :=
  match env.fs image_path with
  | none => .error (.fileNotFound ("Image not found: " ++ image_path))
  | some image_bytes =>
    let image_hash := env.md5hex image_bytes
    let cache_data := image_hash ++ ":" ++ prompt ++ ":" ++ aspect
    .ok (env.md5hex (strBytes cache_data))

/-- Result dictionary of `GeminiVideoGenerator` entry points; Python returns
plain dicts, so every key is optional here and `none` means "key absent". -/
structure GenDict where
  fromCache : Option Bool
  videoUrl : Option String
  videoPath : Option String
  status : Option String
  operationName : Option String
  cacheKey : Option String
  done : Option Bool
deriving DecidableEq, Repr

/-- GeminiVideoGenerator.get_cached_video (agento_video.py lines 130–157):
if `veo_<key>.mp4` exists in the video directory, return the cache-hit dict
with the full URL `f"{base_url_clean}/media/video/{filename}"`. -/
def get_cached_video (env : VEnv) (cache_key : String) : Option GenDict :=
  let filename := videoFileName cache_key
  let video_path := videoDirPath env.basePath ++ "/" ++ filename
  match env.fs video_path with
  | some _ =>
    let relative_path := "media/video/" ++ filename
    let base_url_clean := rstripSlash env.baseUrl
    let video_url := base_url_clean ++ "/" ++ relative_path
    some { fromCache := some true, videoUrl := some video_url,
           videoPath := some video_path, status := some "completed",
           operationName := none, cacheKey := none, done := none }
  | none => none

/-- URI actually fetched by download_video_with_redirects (agento_video.py
lines 182–186): append `key=<api_key>` to Google API URIs that lack one. -/
def buildDownloadUri (apiKey uri : String) : String :=
  if strContains uri "generativelanguage.googleapis.com" ∧
      ¬ strContains uri "key=" then
    uri ++ (if strContains uri "?" then "&" else "?") ++ "key=" ++ apiKey
  else uri

/-- GeminiVideoGenerator.download_video_with_redirects (agento_video.py
lines 159–215): fetch the (possibly key-augmented) URI, let
`raise_for_status` reject 4xx/5xx final statuses, and raise
`RuntimeError("Video download returned empty content")` on an empty body. -/
def download_video_with_redirects (env : VEnv) (fetch : String → HttpBytes)
    (uri : String) : Except Err (List Nat) :=
  let response := fetch (buildDownloadUri env.apiKey uri)
  if raiseForStatusFails response.status then
    .error (.requestException (requestsErrorMessage response.status))
  else if response.body = [] then
    .error (.runtime "Video download returned empty content")
  else
    .ok response.body

/-- GeminiVideoGenerator.save_video (agento_video.py lines 217–238): download
the video and write it to `video_dir / f'veo_{cache_key}.mp4'`, returning the
path; the write is reported as an explicit `(path, bytes)` effect. -/
def save_video (env : VEnv) (fetch : String → HttpBytes)
    (video_uri cache_key : String) :
    Except Err (String × List (String × List Nat)) := do
  let video_path := videoSavePath env.basePath cache_key
  let video_content ← download_video_with_redirects env fetch video_uri
  pure (video_path, [(video_path, video_content)])

/-- GeminiVideoGenerator.resolve_image_path (agento_video.py lines 82–104). -/
def resolve_image_path (env : VEnv) (image_path : String) : String :=
  if charsStartWith "/".toList image_path.toList then image_path
  else
    let p :=
      if charsStartWith "pub/media/".toList image_path.toList then
        String.mk (image_path.toList.drop 10)
      else image_path
    env.basePath ++ "/pub/media/" ++ lstripSlash p

/-- Value of the `raiMediaFilteredReasons` JSON field: the code distinguishes
a list of strings from any other value via `isinstance(reasons, list)`
(agento_video.py lines 410–411). -/
inductive RaiReasons
  | list (xs : List String)
  | str (s : String)
deriving DecidableEq, Repr

/-- JSON object `sample['video']` inside a generated sample. -/
structure VideoObj where
  uri : Option String
deriving DecidableEq, Repr

/-- One element of `generatedSamples` in a generateVideoResponse. -/
structure VSample where
  video : Option VideoObj
deriving DecidableEq, Repr

/-- JSON object `data['response']['generateVideoResponse']`; `none` fields
model absent dictionary keys. -/
structure GenVideoResp where
  raiMediaFilteredReasons : Option RaiReasons
  raiMediaFilteredCount : Option Nat
  generatedSamples : Option (List VSample)
deriving DecidableEq, Repr

/-- JSON object `data['response']` of a video poll. -/
structure VRespData where
  generateVideoResponse : Option GenVideoResp
deriving DecidableEq, Repr

/-- Parsed JSON body of one poll of a video operation. -/
structure VPollData where
  done : Option Bool
  response : Option VRespData
deriving DecidableEq, Repr

/-- Python truthiness of `data.get('done', False)`: the key must be present
and hold `true`. -/
def doneTruthy (d : Option Bool) : Bool :=
  d = some true

/-- The comma-joined reasons string (agento_video.py line 410):
`", ".join(reasons) if isinstance(reasons, list) else str(reasons)`. -/
def raiReasonsStr : RaiReasons → String
  | .list xs => joinWith ", " xs
  | .str s => s

/-- The filtered count (agento_video.py line 411):
`gen_res.get('raiMediaFilteredCount', len(reasons) if isinstance(reasons, list) else 1)`. -/
def raiFilteredCount (g : GenVideoResp) (reasons : RaiReasons) : Nat :=
  match g.raiMediaFilteredCount with
  | some n => n
  | none =>
    match reasons with
    | .list xs => xs.length
    | .str _ => 1

/-- The RuntimeError message built for a safety-filter block (agento_video.py
lines 412–420). -/
def raiMessage (g : GenVideoResp) (reasons : RaiReasons) : String :=
  "Video generation was blocked by safety filters. Reason(s): " ++
  raiReasonsStr reasons ++
  ". Filtered count: " ++ natToStr (raiFilteredCount g reasons) ++
  ". Suggestions: 1) Simplify your prompt (remove brand names, celebrities, or copyrighted content), " ++
  "2) If audio is the issue, retry with --silent-video flag or add \x27silent video\x27 to your prompt, " ++
  "3) Check that your image doesn\x27t contain restricted content. " ++
  "You have not been charged for this attempt."

/-- Result dict returned by poll_video_operation on success
(agento_video.py lines 448–453). -/
structure VideoResult where
  videoUrl : String
  videoPath : String
  embedUrl : String
  status : String
deriving DecidableEq, Repr

/-- Last `'/'`-separated component of an operation name
(`operation_name.split('/')[-1]`, agento_video.py line 436). -/
def lastComponent (s : String) : String :=
  String.mk ((s.toList.reverse.takeWhile (fun c => c ≠ '/')).reverse)

/-- The video-URI extraction of poll_video_operation (agento_video.py
lines 398–426): walk `response.generateVideoResponse`, raising on the
safety-filter marker, otherwise taking `generatedSamples[0].video.uri`
when the samples list is present and non-empty. -/
def extractVideoUri (data : VPollData) : Except Err (Option String) :=
  match data.response with
  | none => .ok none
  | some response_data =>
    match response_data.generateVideoResponse with
    | none => .ok none
    | some gen_res =>
      match gen_res.raiMediaFilteredReasons with
      | some reasons => .error (.runtime (raiMessage gen_res reasons))
      | none =>
        match gen_res.generatedSamples with
        | some (sample :: _) =>
          match sample.video with
          | some v =>
            match v.uri with
            | some u => .ok (some u)
            | none => .ok none
          | none => .ok none
        | _ => .ok none

/-- Body of poll_video_operation once a poll reported `done` (agento_video.py
lines 397–453): extract the URI, reject a missing/empty one, save the video
under the cache key (falling back to the operation-name tail), and build the
URL / embed-tag result dict. File writes are returned alongside the dict. -/
def videoDoneData (env : VEnv) (fetch : String → HttpBytes)
    (operation_name : String) (cache_key : Option String) (data : VPollData) :
    Except Err (VideoResult × List (String × List Nat)) := do
  let video_uri ← extractVideoUri data
  match video_uri with
  | none => throw (.runtime "No video URI found in completed operation response")
  | some u =>
    if u = "" then
      throw (.runtime "No video URI found in completed operation response")
    else do
      let key :=
        match cache_key with
        | some k => if k = "" then lastComponent operation_name else k
        | none => lastComponent operation_name
      let r ← save_video env fetch u key
      let video_path := r.1
      let video_filename := pathName video_path
      let relative_path := "media/video/" ++ video_filename
      let base_url_clean := rstripSlash env.baseUrl
      let video_url := base_url_clean ++ "/" ++ relative_path
      let embed_url :=
        "<video controls width=\"100%\" height=\"auto\"><source src=\"" ++
        video_url ++
        "\" type=\"video/mp4\">Your browser does not support the video tag.</video>"
      pure ({ videoUrl := video_url, videoPath := video_path,
              embedUrl := embed_url, status := "completed" }, r.2)

/-- Exception translation of the video poll loop: its `try` block catches
`requests.RequestException` and re-raises it as
`RuntimeError(f'Video operation polling failed: {str(e)}')`
(agento_video.py lines 458–459); every other exception propagates. -/
def wrapPollExn : Err → Err
  | .requestException m => .runtime ("Video operation polling failed: " ++ m)
  | e => e

/-- The `while True` loop of poll_video_operation (agento_video.py
lines 383–459), driven by the iteration index `k`: check the timeout, let the
k-th GET respond, fail on HTTP error, run the done-branch when `done` is
truthy, else sleep and continue. `fuel` bounds the modelled recursion only;
`none` means the fuel ran out before the loop finished. -/
def pollVideoLoop (env : VEnv) (responses : Nat → HttpJson VPollData)
    (fetch : String → HttpBytes) (el : Nat → Nat)
    (operation_name : String) (maxWait interval : Nat)
    (cache_key : Option String) :
    Nat → Nat → Option (Except Err (VideoResult × List (String × List Nat)))
  | 0, _ => none
  | fuel + 1, k =>
    if maxWait < el k then
      some (.error (.runtime
        ("Video generation timeout after " ++ natToStr maxWait ++ " seconds")))
    else
      let r := responses k
      if raiseForStatusFails r.status then
        some (.error (wrapPollExn (.requestException (requestsErrorMessage r.status))))
      else if doneTruthy r.data.done then
        some ((videoDoneData env fetch operation_name cache_key r.data).mapError wrapPollExn)
      else
        pollVideoLoop env responses fetch el operation_name maxWait interval
          cache_key fuel (k + 1)

/-- GeminiVideoGenerator.poll_video_operation (agento_video.py lines 352–459):
the availability guard followed by the polling loop started at iteration 0. -/
def poll_video_operation (env : VEnv) (responses : Nat → HttpJson VPollData)
    (fetch : String → HttpBytes) (el : Nat → Nat)
    (operation_name : String) (maxWait interval : Nat)
    (cache_key : Option String) (fuel : Nat) :
    Option (Except Err (VideoResult × List (String × List Nat))) :=
  if env.apiKey = "" then
    some (.error (.runtime "Gemini video service is not available."))
  else
    pollVideoLoop env responses fetch el operation_name maxWait interval
      cache_key fuel 0

/-- Signature default `max_wait_seconds: int = 300` of poll_video_operation
(agento_video.py line 355). -/
def videoPollMaxWaitDefault : Nat := 300

/-- Signature default `poll_interval_seconds: int = 10` of
poll_video_operation (agento_video.py line 356). -/
def videoPollIntervalDefault : Nat := 10

/-- Response of the `:predictLongRunning` POST as consumed by
generate_video_from_image: final status plus the `name`/`done` JSON fields. -/
structure PostResp where
  status : Nat
  name : Option String
  done : Option Bool
deriving DecidableEq, Repr

/-- GeminiVideoGenerator.generate_video_from_image (agento_video.py
lines 240–350): availability guard, image resolution and existence check,
silent-video prompt suffix, cache-key computation, cache lookup, and — only
on a cache miss — the POST to `:predictLongRunning`. The returned Bool
records whether that POST was submitted. -/
def generate_video_from_image (env : VEnv) (post : PostResp)
    (image_path prompt aspect : String) (silent_video : Bool) :
    Except Err (GenDict × Bool) :=
  if env.apiKey = "" then
    .error (.runtime
      "Gemini video service is not available. Please configure the Gemini API key.")
  else
    let source_path := resolve_image_path env image_path
    match env.fs source_path with
    | none => .error (.fileNotFound ("Source image not found: " ++ source_path))
    | some _ =>
      let final_prompt :=
        if silent_video then pyStrip prompt ++ " silent video" else prompt
      match generate_cache_key env source_path final_prompt aspect with
      | .error e => .error e
      | .ok cache_key =>
        match get_cached_video env cache_key with
        | some cached_video => .ok (cached_video, false)
        | none =>
          if raiseForStatusFails post.status then
            .error (.runtime ("Gemini API request failed: " ++
              requestsErrorMessage post.status))
          else
            match post.name with
            | none => .error (.runtime
                "Video generation failed: Invalid API response: operation name not found")
            | some operation_name =>
              let d := doneTruthy post.done
              .ok ({ fromCache := none, videoUrl := none, videoPath := none,
                     status := some (if d then "completed" else "running"),
                     operationName := some operation_name,
                     cacheKey := some cache_key, done := some d }, true)

/-- Environment of `NanaBabanaImageService` (agento_image.py lines 37–51):
api key, base URL, and the output directory `base_path / (output_dir or 'genai')`. -/
structure ImgEnv where
  apiKey : String
  baseUrl : String
  basePath : String
  outputDirName : Option String

/-- The service's output directory (agento_image.py line 50):
`self.output_dir = self.base_path / (output_dir if output_dir is not None else 'genai')`. -/
def imgOutputDir (env : ImgEnv) : String :=
  env.basePath ++ "/" ++ (match env.outputDirName with
                          | some d => d
                          | none => "genai")

/-- Parsed JSON body of one poll in NanaBabanaImageService.poll_operation;
only `done` is inspected by the loop, the rest of the body is uninterpreted. -/
structure ImgPollData where
  done : Option Bool
  rest : String
deriving DecidableEq, Repr

/-- The `while True` loop of NanaBabanaImageService.poll_operation
(agento_image.py lines 154–166): timeout check
(`RuntimeError('Operation timed out')`), GET with `raise_for_status`
(its `requests.RequestException` propagates unwrapped here), return the
parsed body as soon as `data.get('done')` is truthy, else sleep and retry.
`fuel` bounds the modelled recursion only; `none` means it ran out before
the loop finished. -/
def pollOperationLoop (responses : Nat → HttpJson ImgPollData) (el : Nat → Nat)
    (maxWait interval : Nat) :
    Nat → Nat → Option (Except Err ImgPollData)
  | 0, _ => none
  | fuel + 1, k =>
    if maxWait < el k then
      some (.error (.runtime "Operation timed out"))
    else
      let resp := responses k
      if raiseForStatusFails resp.status then
        some (.error (.requestException (requestsErrorMessage resp.status)))
      else if doneTruthy resp.data.done then
        some (.ok resp.data)
      else
        pollOperationLoop responses el maxWait interval fuel (k + 1)

/-- NanaBabanaImageService.poll_operation (agento_image.py lines 154–166),
started at iteration 0. -/
def poll_operation (responses : Nat → HttpJson ImgPollData) (el : Nat → Nat)
    (maxWait interval : Nat) (fuel : Nat) : Option (Except Err ImgPollData) :=
  pollOperationLoop responses el maxWait interval fuel 0

/-- Signature default `max_wait_seconds: int = 120` of poll_operation
(agento_image.py line 154). -/
def imagePollMaxWaitDefault : Nat := 120

/-- Signature default `poll_interval_seconds: int = 2` of poll_operation
(agento_image.py line 154). -/
def imagePollIntervalDefault : Nat := 2

/-- JSON object `sample['image']` of a generated sample in
save_asset_from_operation: optional inline bytes and optional URI. -/
structure ImgAsset where
  data : Option (List Nat)
  uri : Option String
deriving DecidableEq, Repr

/-- JSON object `sample['video']` of a generated sample. -/
structure VidAsset where
  uri : Option String
deriving DecidableEq, Repr

/-- One element of `generatedSamples` in the operation response consumed by
save_asset_from_operation. -/
structure ABSample where
  image : Option ImgAsset
  video : Option VidAsset
deriving DecidableEq, Repr

/-- JSON object holding `generatedSamples` (either a generateVideoResponse
or a generateImageResponse). -/
structure ABGenResp where
  generatedSamples : Option (List ABSample)
deriving DecidableEq, Repr

/-- JSON object `operation_data['response']`. -/
structure ABRespData where
  generateVideoResponse : Option ABGenResp
  generateImageResponse : Option ABGenResp
deriving DecidableEq, Repr

/-- Operation data passed to save_asset_from_operation. -/
structure ABOpData where
  done : Option Bool
  response : Option ABRespData
deriving DecidableEq, Repr

/-- The samples list computed by save_asset_from_operation (agento_image.py
lines 170–172): `resp.get('generateVideoResponse') or
resp.get('generateImageResponse') or {}` then `gen.get('generatedSamples') or []`. -/
def abSamples (operation_data : ABOpData) : List ABSample :=
  let resp :=
    match operation_data.response with
    | some r => r
    | none => { generateVideoResponse := none, generateImageResponse := none }
  let gen :=
    match resp.generateVideoResponse with
    | some g => g
    | none =>
      match resp.generateImageResponse with
      | some g => g
      | none => { generatedSamples := none }
  match gen.generatedSamples with
  | some l => l
  | none => []

/-- Python truthiness of an optional byte string (`b''` is falsy). -/
def bytesTruthy (d : Option (List Nat)) : Bool :=
  match d with
  | some b => decide (b ≠ [])
  | none => false

/-- Python `a or b` on optional strings, where an absent value and the empty
string are both falsy. -/
def pyOrStr (a b : Option String) : Option String :=
  match a with
  | some s => if s = "" then b else some s
  | none => b

/-- Python truthiness of an optional string (`''` is falsy). -/
def strTruthy (s : Option String) : Bool :=
  match s with
  | some v => decide (v ≠ "")
  | none => false

/-- Saved-asset base name (agento_image.py line 193):
`name = cache_key or f"lookbook_{int(time.time())}"` — the truthiness of
`cache_key` means an absent or empty key falls back to the generated name. -/
def assetSaveName (cache_key : Option String) (now : Nat) : String :=
  match cache_key with
  | some k => if k = "" then "lookbook_" ++ natToStr now else k
  | none => "lookbook_" ++ natToStr now

/-- NanaBabanaImageService.save_asset_from_operation (agento_image.py
lines 168–196): take the first generated sample, use inline image bytes when
present (truthy), otherwise download `video.uri or image.uri`; write the
content to `output_dir / f"{name}.jpg"` where `name` is the truthy cache key
or `f"lookbook_{int(time.time())}"`. Returns the saved path, the write
effects, and the list of URLs fetched. -/
def save_asset_from_operation (env : ImgEnv) (fetch : String → HttpBytes)
    (now : Nat) (operation_data : ABOpData) (cache_key : Option String) :
    Except Err (String × List (String × List Nat) × List String) := do
  let samples := abSamples operation_data
  match samples with
  | [] => throw (.runtime "No generated samples found in operation response")
  | sample :: _ => do
    let image_data :=
      match sample.image with
      | some ia => ia.data
      | none => none
    let contentAndLog ←
      if bytesTruthy image_data then
        pure ((match image_data with
               | some b => b
               | none => []), ([] : List String))
      else do
        let uri := pyOrStr
          (match sample.video with
           | some v => v.uri
           | none => none)
          (match sample.image with
           | some ia => ia.uri
           | none => none)
        if strTruthy uri then
          match uri with
          | some u => do
            let r := fetch u
            if raiseForStatusFails r.status then
              throw (.requestException (requestsErrorMessage r.status))
            else
              pure (r.body, [u])
          | none => throw (.runtime "No URI or data found for generated asset")
        else
          throw (.runtime "No URI or data found for generated asset")
    let name := assetSaveName cache_key now
    let out_path := imgOutputDir env ++ "/" ++ name ++ ".jpg"
    pure (out_path, [(out_path, contentAndLog.1)], contentAndLog.2)

/-- Lowercase ASCII letter test (`[a-z]` in a case-sensitive regex). -/
def isLowerAZ (c : Char) : Bool :=
  decide (97 ≤ c.toNat ∧ c.toNat ≤ 122)

/-- ASCII digit test (`\d`; Python's `\d` also matches non-ASCII decimal
digits, which this model omits — the final sanitization step makes the
settled claims independent of that difference). -/
def isDigitChar (c : Char) : Bool :=
  decide (48 ≤ c.toNat ∧ c.toNat ≤ 57)

/-- Remove a suffix matching `_[a-z]+_\d+$` (agento_image.py line 227:
`re.sub(r'_[a-z]+_\d+$', '', path_part)`), leaving the list unchanged when
it does not end in such a suffix. -/
def stripLetterNumSuffix (l : List Char) : List Char :=
  let r := l.reverse
  let ds := r.takeWhile isDigitChar
  if ds = [] then l
  else
    match r.drop ds.length with
    | '_' :: r2 =>
      let ls := r2.takeWhile isLowerAZ
      if ls = [] then l
      else
        match r2.drop ls.length with
        | '_' :: r3 => r3.reverse
        | _ => l
    | _ => l

/-- Remove a suffix matching `_\d+$` (agento_image.py line 228:
`re.sub(r'_\d+$', '', path_part)`). -/
def stripNumSuffix (l : List Char) : List Char :=
  let r := l.reverse
  let ds := r.takeWhile isDigitChar
  if ds = [] then l
  else
    match r.drop ds.length with
    | '_' :: r3 => r3.reverse
    | _ => l

/-- Replace every character not satisfying the word-character predicate by
`'_'` (`re.sub(r'[^\w]', '_', s)`). -/
def subNonWord (pw : Char → Bool) (l : List Char) : List Char :=
  l.map (fun c => if pw c then c else '_')

/-- Replace every character that is neither a word character nor a hyphen by
`'_'` (`re.sub(r'[^\w\-_]', '_', s)`; `'_'` is itself a word character). -/
def subNonWordHyphen (pw : Char → Bool) (l : List Char) : List Char :=
  l.map (fun c => if pw c || c = '-' then c else '_')

/-- Accumulator-based scan computing the maximal runs of word characters;
`acc` holds the current run reversed. -/
def wordRunsGo (pw : Char → Bool) : List Char → List Char → List (List Char)
  | acc, [] => if acc = [] then [] else [acc.reverse]
  | acc, c :: rest =>
    if pw c then wordRunsGo pw (c :: acc) rest
    else if acc = [] then wordRunsGo pw [] rest
    else acc.reverse :: wordRunsGo pw [] rest

/-- Maximal runs of word characters of a list
(`re.findall(r'\b\w+\b', s)` — with `\w+` between word boundaries these are
exactly the maximal `\w` runs). -/
def wordRuns (pw : Char → Bool) (l : List Char) : List (List Char) :=
  wordRunsGo pw [] l

/-- The stop-word set of generate_descriptive_filename
(agento_image.py line 250). -/
def gdfStopWords : List String :=
  ["a", "an", "the", "and", "or", "but", "in", "on", "at", "to", "for",
   "of", "with", "by", "create", "make", "generate", "image", "photo",
   "picture"]

/-- The inner helper extract_base_name of generate_descriptive_filename
(agento_image.py lines 216–234): stem of the path (URL path for http(s)
URLs), suffix cleanup, word-character sanitization, underscore collapsing and
stripping, then lower-casing. The parameter `pw` is Python's Unicode `\w`
class (an external Unicode table); every theorem states its assumptions on
`pw` explicitly. -/
def extract_base_name (pw : Char → Bool) (image_path : String) : List Char :=
  let l := image_path.toList
  let path_part :=
    match splitUrlScheme l with
    | some rest => pathStemChars (urlPathChars rest)
    | none => pathStemChars l
  let path_part := stripLetterNumSuffix path_part
  let path_part := stripNumSuffix path_part
  let path_part := subNonWord pw path_part
  let path_part := stripUnderscores (collapseUnderscores path_part)
  lowerChars path_part

/-- The combined base of generate_descriptive_filename before its final
sanitization (agento_image.py lines 236–253): the joined image base names,
padded with up to two meaningful prompt words when short or generic. -/
def gdfCombinedRaw (pw : Char → Bool) (image1 : String)
    (image2 : Option String) (prompt : String) : List Char :=
  let base1 := extract_base_name pw image1
  let combined_base :=
    match image2 with
    | some i2 =>
      let base2 := extract_base_name pw i2
      if base2 ≠ [] ∧ base1 ≠ base2 then base1 ++ '_' :: base2 else base1
    | none => base1
  if combined_base.length < 5 ∨
      combined_base ∈ ["image".toList, "photo".toList, "pic".toList] then
    let words := wordRuns pw (lowerChars prompt.toList)
    let meaningful_words :=
      (words.filter (fun w =>
        String.mk w ∉ gdfStopWords ∧ w.length > 2)).take 2
    match meaningful_words with
    | [] => combined_base
    | w :: ws =>
      combined_base ++ '_' ::
        (ws.foldl (fun acc v => acc ++ '_' :: v) w)
  else combined_base

/-- generate_descriptive_filename (agento_image.py lines 199–267): combine
the base names of the input images, pad short or generic bases with up to two
meaningful prompt words, sanitize for the filesystem (lines 256–257), and
append the Unix timestamp, truncating over-long names (the `timestamp`
parameter is `int(time.time())` at call time). -/
def generate_descriptive_filename (pw : Char → Bool) (image1 : String)
    (image2 : Option String) (prompt : String) (timestamp : Nat) : String :=
  let combined_base :=
    stripUnderscores (collapseUnderscores
      (subNonWordHyphen pw (gdfCombinedRaw pw image1 image2 prompt)))
  let filename := combined_base ++ '_' :: natToChars timestamp
  if filename.length > 100 then
    String.mk (filename.take 95 ++ '_' :: natToChars timestamp)
  else
    String.mk filename

/-- One instance of the `instances` array of a mock-server
`:predictLongRunning` payload; only the presence of the `modelImage` and
`lookImage` keys is inspected by the mock server (mock_veo_server.py
line 137). -/
structure MockInstance where
  modelImage : Option String
  lookImage : Option String
deriving DecidableEq, Repr

/-- Payload stored with a mock operation. -/
structure MockPayload where
  instances : List MockInstance
deriving DecidableEq, Repr

/-- An operation record of the mock server (mock_veo_server.py lines 75–80). -/
structure MockOp where
  name : String
  done : Bool
  payload : MockPayload
  created_at : Nat
deriving DecidableEq, Repr

/-- Operation creation in MockVeoAPIHandler.do_POST (mock_veo_server.py
lines 70–80): a fresh operation named `operations/<uuid>`, stored not-done
with its payload and creation time. -/
def mockCreateOperation (operation_id : String) (payload : MockPayload)
    (now : Nat) : MockOp :=
  { name := "operations/" ++ operation_id, done := false,
    payload := payload, created_at := now }

/-- A `uri`/`mimeType` media object of a mock poll response. -/
structure MockMedia where
  uri : String
  mimeType : String
deriving DecidableEq, Repr

/-- One generated sample of a mock poll response. -/
structure MockSample where
  image : Option MockMedia
  video : Option MockMedia
deriving DecidableEq, Repr

/-- The `generatedSamples` wrapper of a mock poll response. -/
structure MockGenResp where
  generatedSamples : List MockSample
deriving DecidableEq, Repr

/-- The `response` object of a mock poll response. -/
structure MockRespBody where
  generateImageResponse : Option MockGenResp
  generateVideoResponse : Option MockGenResp
deriving DecidableEq, Repr

/-- Body of a mock operation-status poll response. -/
structure MockPollResp where
  name : String
  done : Bool
  response : Option MockRespBody
deriving DecidableEq, Repr

/-- Download URI generated by the mock server for a fresh media id
(mock_veo_server.py lines 140 and 164). -/
def mockServerUri (host : String) (port : Nat) (kind media_id : String) :
    String :=
  "http://" ++ host ++ ":" ++ natToStr port ++ "/" ++ kind ++ "/" ++ media_id

/-- Operation polling in MockVeoAPIHandler.do_GET (mock_veo_server.py
lines 111–187): with less than 5 seconds elapsed since creation the response
is the minimal `done: false` body with no response payload; afterwards it is
`done: true` with a generated sample — an image sample when the first payload
instance carries both `modelImage` and `lookImage`, a video sample otherwise.
`media_id` stands for the freshly generated uuid. -/
def mockPollResponse (host : String) (port : Nat) (op : MockOp) (now : Nat)
    (media_id : String) : MockPollResp :=
  let elapsed := now - op.created_at
  if elapsed < 5 then
    { name := op.name, done := false, response := none }
  else
    let inst := op.payload.instances.head?
    let isImage :=
      match inst with
      | some i => i.modelImage.isSome && i.lookImage.isSome
      | none => false
    if isImage then
      { name := op.name, done := true,
        response := some
          { generateImageResponse := some
              { generatedSamples :=
                  [{ image := some { uri := mockServerUri host port "images" media_id,
                                     mimeType := "image/png" },
                     video := none }] },
            generateVideoResponse := none } }
    else
      { name := op.name, done := true,
        response := some
          { generateImageResponse := none,
            generateVideoResponse := some
              { generatedSamples :=
                  [{ image := none,
                     video := some { uri := mockServerUri host port "videos" media_id,
                                     mimeType := "video/mp4" } }] } } }

/-- C1: for every existing image file, prompt and aspect-ratio string,
generate_cache_key returns the MD5 hex digest of the string
`"<hex MD5 of the image bytes>:<prompt>:<aspect_ratio>"`; the key therefore
depends only on the image's byte content (not its path), the prompt and the
aspect ratio, and equal inputs yield equal keys: two paths whose files hold
the same bytes receive the same key. -/
theorem C1_cache_key_content_addressed (env : VEnv) (p1 p2 prompt aspect : String)
    (b : List Nat) (h1 : env.fs p1 = some b) (h2 : env.fs p2 = some b) :
    generate_cache_key env p1 prompt aspect =
      .ok (env.md5hex (strBytes (env.md5hex b ++ ":" ++ prompt ++ ":" ++ aspect))) ∧
    generate_cache_key env p2 prompt aspect =
      generate_cache_key env p1 prompt aspect := by
  constructor
  · simp [generate_cache_key, h1]
  · simp [generate_cache_key, h1, h2]

/-- Environment used by concrete witnesses of the video-generator claims:
two distinct paths hold the same bytes; the digest parameter is a stub
(witnesses only need some concrete function). -/
def wEnv : VEnv :=
  { apiKey := "K", basePath := "/app", baseUrl := "https://h.test/",
    fs := fun p => if p = "a.jpg" ∨ p = "b.jpg" then some [1, 2] else none,
    md5hex := fun l => natToStr l.length }

/-- Witness for C1 at a concrete environment and two concrete paths holding
the same bytes. -/
theorem C1_cache_key_content_addressed_witness :
    generate_cache_key wEnv "a.jpg" "p" "16:9" =
      .ok (wEnv.md5hex (strBytes (wEnv.md5hex [1, 2] ++ ":" ++ "p" ++ ":" ++ "16:9"))) ∧
    generate_cache_key wEnv "b.jpg" "p" "16:9" =
      generate_cache_key wEnv "a.jpg" "p" "16:9" :=
  C1_cache_key_content_addressed wEnv "a.jpg" "b.jpg" "p" "16:9" [1, 2]
    (by decide) (by decide)

/-- C4: save_video writes the downloaded video to
`<base_path>/pub/media/video/veo_<k>.mp4` and returns exactly that path
(the write effects name no other path), and get_cached_video looks up the
same path: on the filesystem extended with exactly that write it reports the
cache hit for `k` with that path. -/
theorem C4_save_path_deterministic (env : VEnv) (fetch : String → HttpBytes)
    (uri k : String) (resp : HttpBytes)
    (hf : fetch (buildDownloadUri env.apiKey uri) = resp)
    (hs : raiseForStatusFails resp.status = false)
    (hb : resp.body ≠ []) :
    save_video env fetch uri k =
      .ok (videoSavePath env.basePath k, [(videoSavePath env.basePath k, resp.body)]) ∧
    get_cached_video
        { env with fs := fun p =>
            if p = videoSavePath env.basePath k then some resp.body else env.fs p } k =
      some { fromCache := some true,
             videoUrl := some (rstripSlash env.baseUrl ++ "/" ++ ("media/video/" ++ videoFileName k)),
             videoPath := some (videoSavePath env.basePath k),
             status := some "completed",
             operationName := none, cacheKey := none, done := none } := by
  constructor
  · simp [save_video, download_video_with_redirects, hf, hs, hb]
  · simp [get_cached_video, videoSavePath]

/-- Fetch function used by concrete witnesses: every URL answers 200 with a
one-byte body. -/
def wFetch : String → HttpBytes := fun _ => ⟨200, [7]⟩

/-- Witness for C4 at a concrete environment, fetch function and key. -/
theorem C4_save_path_deterministic_witness :
    save_video wEnv wFetch "http://host/v" "KC" =
      .ok (videoSavePath wEnv.basePath "KC", [(videoSavePath wEnv.basePath "KC", [7])]) ∧
    get_cached_video
        { wEnv with fs := fun p =>
            if p = videoSavePath wEnv.basePath "KC" then some [7] else wEnv.fs p } "KC" =
      some { fromCache := some true,
             videoUrl := some (rstripSlash wEnv.baseUrl ++ "/" ++ ("media/video/" ++ videoFileName "KC")),
             videoPath := some (videoSavePath wEnv.basePath "KC"),
             status := some "completed",
             operationName := none, cacheKey := none, done := none } :=
  C4_save_path_deterministic wEnv wFetch "http://host/v" "KC" ⟨200, [7]⟩
    (by decide) (by decide) (by decide)

/-- Fetch function of the C7 counterexample: the redirect chain ends in a
302 response (a redirect status the requests library does not follow
further, e.g. one lacking a Location header) with a non-empty body. -/
def c7Fetch : String → HttpBytes := fun _ => ⟨302, [1]⟩

/-- Counterexample to C7 as stated: the final status 302 is not 2xx, yet
download_video_with_redirects returns the body instead of raising —
`Response.raise_for_status` only raises for statuses 400–599, so a final
3xx response with a non-empty body is returned successfully. -/
theorem C7_counterexample :
    (c7Fetch (buildDownloadUri wEnv.apiKey "http://host/v")).status = 302 ∧
    ¬ (200 ≤ (c7Fetch (buildDownloadUri wEnv.apiKey "http://host/v")).status ∧
        (c7Fetch (buildDownloadUri wEnv.apiKey "http://host/v")).status < 300) ∧
    download_video_with_redirects wEnv c7Fetch "http://host/v" = .ok [1] := by
  decide

/-- C7 (amended): download_video_with_redirects returns only non-empty
content — an empty body raises RuntimeError('Video download returned empty
content'), and a final status of 4xx or 5xx (the statuses
`raise_for_status` rejects) raises; consequently every byte string it
returns, and every file save_video writes, is non-empty. -/
theorem C7_download_nonempty (env : VEnv) (fetch : String → HttpBytes)
    (uri : String) :
    (∀ b, download_video_with_redirects env fetch uri = .ok b → b ≠ []) ∧
    (raiseForStatusFails (fetch (buildDownloadUri env.apiKey uri)).status = true →
      download_video_with_redirects env fetch uri =
        .error (.requestException
          (requestsErrorMessage (fetch (buildDownloadUri env.apiKey uri)).status))) ∧
    ((fetch (buildDownloadUri env.apiKey uri)).body = [] →
      raiseForStatusFails (fetch (buildDownloadUri env.apiKey uri)).status = false →
      download_video_with_redirects env fetch uri =
        .error (.runtime "Video download returned empty content")) ∧
    (∀ k p ws, save_video env fetch uri k = .ok (p, ws) →
      ∀ q ∈ ws, q.2 ≠ []) := by
  refine ⟨?_, ?_, ?_, ?_⟩
  · intro b hb
    unfold download_video_with_redirects at hb
    by_cases hs : raiseForStatusFails (fetch (buildDownloadUri env.apiKey uri)).status
    · simp [hs] at hb
    · by_cases he : (fetch (buildDownloadUri env.apiKey uri)).body = []
      · simp [hs, he] at hb
      · simp [hs, he] at hb
        subst hb
        exact he
  · intro hs
    simp [download_video_with_redirects, hs]
  · intro he hs
    simp [download_video_with_redirects, hs, he]
  · intro k p ws hsv q hq
    unfold save_video at hsv
    by_cases hs : raiseForStatusFails (fetch (buildDownloadUri env.apiKey uri)).status
    · simp [download_video_with_redirects, hs] at hsv
    · by_cases he : (fetch (buildDownloadUri env.apiKey uri)).body = []
      · simp [download_video_with_redirects, hs, he] at hsv
      · simp [download_video_with_redirects, hs, he] at hsv
        rcases hsv with ⟨hp, hws⟩
        subst hws
        simp at hq
        subst hq
        exact he

/-- Witness for C7 (amended) at a concrete environment and fetch function. -/
theorem C7_download_nonempty_witness :
    (([7] : List Nat) ≠ []) ∧
    (∀ q ∈ [(videoSavePath wEnv.basePath "KC", [7])], (q.2 : List Nat) ≠ []) :=
  ⟨(C7_download_nonempty wEnv wFetch "http://host/v").1 [7] (by decide),
   (C7_download_nonempty wEnv wFetch "http://host/v").2.2.2 "KC"
     (videoSavePath wEnv.basePath "KC") [(videoSavePath wEnv.basePath "KC", [7])]
     (by decide)⟩

/-- Arithmetic bound used for the timeout theorems: one more full interval
past `a / b` intervals strictly exceeds `a`. -/
theorem lt_succ_div_mul (a b : Nat) (hb : 1 ≤ b) : a < (a / b + 1) * b := by
  have h1 : b * (a / b) + a % b = a := Nat.div_add_mod a b
  have h2 : a % b < b := Nat.mod_lt a (by omega)
  have h3 : (a / b + 1) * b = b * (a / b) + b := by ring
  omega

/-- Timeout of the image poll loop: when no response is ever done or an HTTP
error, and each iteration advances the clock by at least `interval`, a run
whose fuel covers the timeout bound ends in the timeout error. -/
theorem pollOperationLoop_timeout (responses : Nat → HttpJson ImgPollData)
    (el : Nat → Nat) (maxWait interval : Nat)
    (hel : ∀ k, el k + interval ≤ el (k + 1))
    (hnd : ∀ k, doneTruthy (responses k).data.done = false)
    (hok : ∀ k, raiseForStatusFails (responses k).status = false) :
    ∀ f k, maxWait < el k + f * interval →
      pollOperationLoop responses el maxWait interval (f + 1) k =
        some (.error (.runtime "Operation timed out")) := by
  intro f
  induction f with
  | zero =>
    intro k hk
    simp only [Nat.zero_mul, Nat.add_zero] at hk
    unfold pollOperationLoop
    simp [hk]
  | succ n ih =>
    intro k hk
    unfold pollOperationLoop
    by_cases h : maxWait < el k
    · simp [h]
    · have h2 : maxWait < el (k + 1) + n * interval := by
        have hstep := hel k
        have hexp : el k + (n + 1) * interval = el k + interval + n * interval := by
          ring
        omega
      simp only [h, if_false, hok k, hnd k, Bool.false_eq_true, if_neg,
        not_false_eq_true]
      exact ih (k + 1) h2

/-- Timeout of the video poll loop, under the same hypotheses. -/
theorem pollVideoLoop_timeout (env : VEnv) (responses : Nat → HttpJson VPollData)
    (fetch : String → HttpBytes) (el : Nat → Nat) (opn : String)
    (maxWait interval : Nat) (ck : Option String)
    (hel : ∀ k, el k + interval ≤ el (k + 1))
    (hnd : ∀ k, doneTruthy (responses k).data.done = false)
    (hok : ∀ k, raiseForStatusFails (responses k).status = false) :
    ∀ f k, maxWait < el k + f * interval →
      pollVideoLoop env responses fetch el opn maxWait interval ck (f + 1) k =
        some (.error (.runtime
          ("Video generation timeout after " ++ natToStr maxWait ++ " seconds"))) := by
  intro f
  induction f with
  | zero =>
    intro k hk
    simp only [Nat.zero_mul, Nat.add_zero] at hk
    unfold pollVideoLoop
    simp [hk]
  | succ n ih =>
    intro k hk
    unfold pollVideoLoop
    by_cases h : maxWait < el k
    · simp [h]
    · have h2 : maxWait < el (k + 1) + n * interval := by
        have hstep := hel k
        have hexp : el k + (n + 1) * interval = el k + interval + n * interval := by
          ring
        omega
      simp only [h, if_false, hok k, hnd k, Bool.false_eq_true, if_neg,
        not_false_eq_true]
      exact ih (k + 1) h2

/-- C2: both polling loops are bounded by their timeouts. When no poll
response ever reports the operation done (and polls succeed at the HTTP
level) and every iteration consumes at least `poll_interval_seconds`, the
image loop raises RuntimeError('Operation timed out') and the video loop
raises the video timeout error, each within `maxWait / interval + 2`
iterations — neither loop runs forever; moreover each loop raises as soon
as the elapsed time exceeds `max_wait_seconds` (the timeout branch fires
immediately once `el k > maxWait`); the signature defaults are 120 seconds
for images and 300 for videos. -/
theorem C2_poll_loops_bounded
    (rI : Nat → HttpJson ImgPollData) (elI : Nat → Nat) (mI iI : Nat)
    (envV : VEnv) (rV : Nat → HttpJson VPollData) (fetch : String → HttpBytes)
    (elV : Nat → Nat) (opn : String) (mV iV : Nat) (ck : Option String)
    (hiI : 1 ≤ iI) (helI : ∀ k, elI k + iI ≤ elI (k + 1))
    (hndI : ∀ k, doneTruthy (rI k).data.done = false)
    (hokI : ∀ k, raiseForStatusFails (rI k).status = false)
    (hiV : 1 ≤ iV) (helV : ∀ k, elV k + iV ≤ elV (k + 1))
    (hndV : ∀ k, doneTruthy (rV k).data.done = false)
    (hokV : ∀ k, raiseForStatusFails (rV k).status = false)
    (hkey : envV.apiKey ≠ "") :
    poll_operation rI elI mI iI (mI / iI + 2) =
      some (.error (.runtime "Operation timed out")) ∧
    poll_video_operation envV rV fetch elV opn mV iV ck (mV / iV + 2) =
      some (.error (.runtime
        ("Video generation timeout after " ++ natToStr mV ++ " seconds"))) ∧
    (∀ f k, mI < elI k →
      pollOperationLoop rI elI mI iI (f + 1) k =
        some (.error (.runtime "Operation timed out"))) ∧
    (∀ f k, mV < elV k →
      pollVideoLoop envV rV fetch elV opn mV iV ck (f + 1) k =
        some (.error (.runtime
          ("Video generation timeout after " ++ natToStr mV ++ " seconds")))) ∧
    imagePollMaxWaitDefault = 120 ∧ videoPollMaxWaitDefault = 300 := by
  refine ⟨?_, ?_, ?_, ?_, rfl, rfl⟩
  · show pollOperationLoop rI elI mI iI ((mI / iI + 1) + 1) 0 = _
    apply pollOperationLoop_timeout rI elI mI iI helI hndI hokI
    have := lt_succ_div_mul mI iI hiI
    omega
  · unfold poll_video_operation
    simp only [hkey, if_neg, if_false]
    show pollVideoLoop envV rV fetch elV opn mV iV ck ((mV / iV + 1) + 1) 0 = _
    apply pollVideoLoop_timeout envV rV fetch elV opn mV iV ck helV hndV hokV
    have := lt_succ_div_mul mV iV hiV
    omega
  · intro f k hk
    unfold pollOperationLoop
    simp [hk]
  · intro f k hk
    unfold pollVideoLoop
    simp [hk]

/-- Constant not-done image poll responses used by the C2 witness. -/
def wRespI : Nat → HttpJson ImgPollData := fun _ => ⟨200, ⟨some false, ""⟩⟩

/-- Constant not-done video poll responses used by the C2 witness. -/
def wRespV : Nat → HttpJson VPollData := fun _ => ⟨200, ⟨some false, none⟩⟩

/-- Elapsed-time function advancing two seconds per iteration. -/
def wElI : Nat → Nat := fun k => 2 * k

/-- Elapsed-time function advancing three seconds per iteration. -/
def wElV : Nat → Nat := fun k => 3 * k

/-- Witness for C2 at concrete response streams and clocks. -/
theorem C2_poll_loops_bounded_witness :
    poll_operation wRespI wElI 5 2 4 =
      some (.error (.runtime "Operation timed out")) ∧
    poll_video_operation wEnv wRespV wFetch wElV "operations/1" 7 3 none 4 =
      some (.error (.runtime
        ("Video generation timeout after " ++ natToStr 7 ++ " seconds"))) := by
  have h := C2_poll_loops_bounded wRespI wElI 5 2 wEnv wRespV wFetch wElV
    "operations/1" 7 3 none (by decide)
    (fun k => by simp [wElI, Nat.mul_succ])
    (fun k => rfl) (fun k => rfl) (by decide)
    (fun k => by simp [wElV, Nat.mul_succ])
    (fun k => rfl) (fun k => rfl) (by decide)
  exact ⟨h.1, h.2.1⟩

/-- Successful image polls return exactly the first response whose `done`
field is truthy: the returned body is the body of poll `j`, `done` is
`true` in it, and no earlier poll (from the start index on) was done. -/
theorem pollOperationLoop_first_done (responses : Nat → HttpJson ImgPollData)
    (el : Nat → Nat) (maxWait interval : Nat) :
    ∀ fuel k data,
      pollOperationLoop responses el maxWait interval fuel k = some (.ok data) →
      ∃ j, k ≤ j ∧ data = (responses j).data ∧
        (responses j).data.done = some true ∧
        ∀ i, k ≤ i → i < j → ¬ (responses i).data.done = some true := by
  intro fuel
  induction fuel with
  | zero => intro k data h; simp [pollOperationLoop] at h
  | succ n ih =>
    intro k data h
    unfold pollOperationLoop at h
    by_cases h1 : maxWait < el k
    · simp [h1] at h
    · by_cases h2 : raiseForStatusFails (responses k).status
      · simp [h1, h2] at h
      · by_cases h3 : doneTruthy (responses k).data.done
        · simp [h1, h2, h3] at h
          refine ⟨k, Nat.le_refl k, h.symm, ?_, ?_⟩
          · simpa [doneTruthy] using h3
          · intro i hki hik
            omega
        · simp only [h1, if_false, h2, h3, Bool.false_eq_true, if_neg,
            not_false_eq_true] at h
          obtain ⟨j, hkj, hd, hdone, hfirst⟩ := ih (k + 1) data h
          refine ⟨j, by omega, hd, hdone, ?_⟩
          intro i hki hij
          rcases Nat.eq_or_lt_of_le hki with heq | hlt
          · subst heq
            simpa [doneTruthy] using h3
          · exact hfirst i hlt hij

/-- Successful video polls build their result from the first response whose
`done` field is truthy, via the done-branch `videoDoneData`. -/
theorem pollVideoLoop_first_done (env : VEnv) (responses : Nat → HttpJson VPollData)
    (fetch : String → HttpBytes) (el : Nat → Nat) (opn : String)
    (maxWait interval : Nat) (ck : Option String) :
    ∀ fuel k res,
      pollVideoLoop env responses fetch el opn maxWait interval ck fuel k =
        some (.ok res) →
      ∃ j, k ≤ j ∧ (responses j).data.done = some true ∧
        videoDoneData env fetch opn ck (responses j).data = .ok res ∧
        ∀ i, k ≤ i → i < j → ¬ (responses i).data.done = some true := by
  intro fuel
  induction fuel with
  | zero => intro k res h; simp [pollVideoLoop] at h
  | succ n ih =>
    intro k res h
    unfold pollVideoLoop at h
    by_cases h1 : maxWait < el k
    · simp [h1] at h
    · by_cases h2 : raiseForStatusFails (responses k).status
      · simp [h1, h2] at h
      · by_cases h3 : doneTruthy (responses k).data.done
        · simp only [h1, if_false, h2, h3, Bool.false_eq_true, if_neg,
            not_false_eq_true, if_true, Option.some.injEq] at h
          refine ⟨k, Nat.le_refl k, by simpa [doneTruthy] using h3, ?_, ?_⟩
          · cases hv : videoDoneData env fetch opn ck (responses k).data with
            | error e => rw [hv] at h; simp [Except.mapError] at h
            | ok v => rw [hv] at h; simp [Except.mapError] at h; rw [h]
          · intro i hki hik
            omega
        · simp only [h1, if_false, h2, h3, Bool.false_eq_true, if_neg,
            not_false_eq_true] at h
          obtain ⟨j, hkj, hdone, hres, hfirst⟩ := ih (k + 1) res h
          refine ⟨j, by omega, hdone, hres, ?_⟩
          intro i hki hij
          rcases Nat.eq_or_lt_of_le hki with heq | hlt
          · subst heq
            simpa [doneTruthy] using h3
          · exact hfirst i hlt hij

/-- C6: a polling run that completes returns (or proceeds to asset
extraction) exactly on the first poll response whose `done` field is
truthy. poll_operation returns that response's parsed body — never a body
in which `done` is absent or falsy — and poll_video_operation builds its
result from a response with `done` set to true, with no earlier response
done. -/
theorem C6_returns_first_done
    (rI : Nat → HttpJson ImgPollData) (elI : Nat → Nat) (mI iI : Nat)
    (envV : VEnv) (rV : Nat → HttpJson VPollData) (fetch : String → HttpBytes)
    (elV : Nat → Nat) (opn : String) (mV iV : Nat) (ck : Option String) :
    (∀ fuel data, poll_operation rI elI mI iI fuel = some (.ok data) →
      ∃ j, data = (rI j).data ∧ (rI j).data.done = some true ∧
        ∀ i, i < j → ¬ (rI i).data.done = some true) ∧
    (∀ fuel res,
      poll_video_operation envV rV fetch elV opn mV iV ck fuel = some (.ok res) →
      ∃ j, (rV j).data.done = some true ∧
        videoDoneData envV fetch opn ck (rV j).data = .ok res ∧
        ∀ i, i < j → ¬ (rV i).data.done = some true) := by
  constructor
  · intro fuel data h
    obtain ⟨j, _, hd, hdone, hfirst⟩ :=
      pollOperationLoop_first_done rI elI mI iI fuel 0 data h
    exact ⟨j, hd, hdone, fun i hij => hfirst i (Nat.zero_le i) hij⟩
  · intro fuel res h
    unfold poll_video_operation at h
    by_cases hkey : envV.apiKey = ""
    · simp [hkey] at h
    · simp only [hkey, if_neg, if_false] at h
      obtain ⟨j, _, hdone, hres, hfirst⟩ :=
        pollVideoLoop_first_done envV rV fetch elV opn mV iV ck fuel 0 res h
      exact ⟨j, hdone, hres, fun i hij => hfirst i (Nat.zero_le i) hij⟩

/-- Image poll responses used by the C6 witness: done from index 2 on. -/
def wRespI6 : Nat → HttpJson ImgPollData :=
  fun k => if k < 2 then ⟨200, ⟨some false, "x"⟩⟩ else ⟨200, ⟨some true, "y"⟩⟩

/-- Completed video poll body used by the C6 and C3 witnesses. -/
def wVDone : VPollData :=
  ⟨some true, some ⟨some ⟨none, none, some [⟨some ⟨some "http://host/v"⟩⟩]⟩⟩⟩

/-- Video poll responses used by the C6 witness: done from index 1 on. -/
def wRespV6 : Nat → HttpJson VPollData :=
  fun k => if k < 1 then ⟨200, ⟨some false, none⟩⟩ else ⟨200, wVDone⟩

/-- Concrete result of the C6 witness's video done-branch. -/
def wVRes : VideoResult × List (String × List Nat) :=
  ({ videoUrl := "https://h.test/media/video/veo_CK.mp4",
     videoPath := "/app/pub/media/video/veo_CK.mp4",
     embedUrl := "<video controls width=\"100%\" height=\"auto\"><source src=\"https://h.test/media/video/veo_CK.mp4\" type=\"video/mp4\">Your browser does not support the video tag.</video>",
     status := "completed" },
   [("/app/pub/media/video/veo_CK.mp4", [7])])

set_option maxRecDepth 8192

/-- Witness for C6 at concrete response streams whose loops complete. -/
theorem C6_returns_first_done_witness :
    (∃ j, (⟨some true, "y"⟩ : ImgPollData) = (wRespI6 j).data ∧
      (wRespI6 j).data.done = some true ∧
      ∀ i, i < j → ¬ (wRespI6 i).data.done = some true) ∧
    (∃ j, (wRespV6 j).data.done = some true ∧
      videoDoneData wEnv wFetch "operations/1" (some "CK") (wRespV6 j).data =
        .ok wVRes ∧
      ∀ i, i < j → ¬ (wRespV6 i).data.done = some true) :=
  ⟨(C6_returns_first_done wRespI6 (fun k => 2 * k) 120 2 wEnv wRespV6 wFetch
      (fun k => 3 * k) "operations/1" 300 10 (some "CK")).1 10
      ⟨some true, "y"⟩ (by decide),
   (C6_returns_first_done wRespI6 (fun k => 2 * k) 120 2 wEnv wRespV6 wFetch
      (fun k => 3 * k) "operations/1" 300 10 (some "CK")).2 10
      wVRes (by decide)⟩

/-- C3: for every poll response with `done` set to true whose
`response.generateVideoResponse` object contains the key
`raiMediaFilteredReasons`, the done-branch of poll_video_operation raises
the safety-filter RuntimeError (whose message reports the filter reasons)
instead of returning a result — in particular it never returns a saved-file
effect, so no video file is saved — and the polling loop, on reaching such
a response, terminates with exactly that error. -/
theorem C3_safety_filter_blocks (env : VEnv) (fetch : String → HttpBytes)
    (opn : String) (ck : Option String) (data : VPollData)
    (rd : VRespData) (g : GenVideoResp) (reasons : RaiReasons)
    (hdone : data.done = some true)
    (h1 : data.response = some rd)
    (h2 : rd.generateVideoResponse = some g)
    (h3 : g.raiMediaFilteredReasons = some reasons) :
    videoDoneData env fetch opn ck data =
      .error (.runtime (raiMessage g reasons)) ∧
    (∀ res ws, videoDoneData env fetch opn ck data ≠ .ok (res, ws)) ∧
    (∀ responses el maxWait interval fuel k,
      (responses : Nat → HttpJson VPollData) k = ⟨200, data⟩ →
      ¬ maxWait < el k →
      pollVideoLoop env responses fetch el opn maxWait interval ck (fuel + 1) k =
        some (.error (.runtime (raiMessage g reasons)))) := by
  have hmain : videoDoneData env fetch opn ck data =
      .error (.runtime (raiMessage g reasons)) := by
    unfold videoDoneData extractVideoUri
    simp only [h1, h2, h3]
    rfl
  refine ⟨hmain, ?_, ?_⟩
  · intro res ws hcontra
    rw [hmain] at hcontra
    exact Except.noConfusion hcontra
  · intro responses el maxWait interval fuel k hr ht
    unfold pollVideoLoop
    rw [hr]
    simp only [ht, if_false, if_neg, not_false_eq_true]
    have hs : raiseForStatusFails (200 : Nat) = false := by decide
    simp only [hs, Bool.false_eq_true, if_neg, not_false_eq_true]
    have hd : doneTruthy data.done = true := by simp [doneTruthy, hdone]
    simp only [hd, if_true]
    rw [hmain]
    rfl

/-- Poll body with a safety-filter marker, used by the C3 witness. -/
def wRaiData : VPollData :=
  ⟨some true, some ⟨some ⟨some (.list ["celebrity", "audio"]), none, none⟩⟩⟩

/-- Response stream delivering the safety-filtered body, for the C3 witness. -/
def wRaiResp : Nat → HttpJson VPollData := fun _ => ⟨200, wRaiData⟩

/-- Witness for C3 at a concrete safety-filtered poll body. -/
theorem C3_safety_filter_blocks_witness :
    videoDoneData wEnv wFetch "operations/1" none wRaiData =
      .error (.runtime (raiMessage ⟨some (.list ["celebrity", "audio"]), none, none⟩
        (.list ["celebrity", "audio"]))) ∧
    (∀ res ws, videoDoneData wEnv wFetch "operations/1" none wRaiData ≠
      .ok (res, ws)) ∧
    (∀ responses el maxWait interval fuel k,
      (responses : Nat → HttpJson VPollData) k = ⟨200, wRaiData⟩ →
      ¬ maxWait < el k →
      pollVideoLoop wEnv responses wFetch el "operations/1" maxWait interval
          none (fuel + 1) k =
        some (.error (.runtime
          (raiMessage ⟨some (.list ["celebrity", "audio"]), none, none⟩
            (.list ["celebrity", "audio"]))))) :=
  C3_safety_filter_blocks wEnv wFetch "operations/1" none wRaiData
    ⟨some ⟨some (.list ["celebrity", "audio"]), none, none⟩⟩
    ⟨some (.list ["celebrity", "audio"]), none, none⟩
    (.list ["celebrity", "audio"])
    rfl rfl rfl rfl

/-- C5: when the cached file `veo_<cache_key>.mp4` already exists (with an
available API key and an existing source image), generate_video_from_image
returns the cache-hit dict — `fromCache` true, status 'completed', the
cached file's path and URL — and submits no generation request to the API
(the recorded api-called flag is false). -/
theorem C5_cache_hit_skips_api (env : VEnv) (post : PostResp)
    (image_path prompt aspect : String) (silent_video : Bool) (ck : String)
    (hkey : env.apiKey ≠ "")
    (hsrc : (env.fs (resolve_image_path env image_path)).isSome)
    (hck : generate_cache_key env (resolve_image_path env image_path)
        (if silent_video then pyStrip prompt ++ " silent video" else prompt)
        aspect = .ok ck)
    (hcache : (env.fs (videoDirPath env.basePath ++ "/" ++ videoFileName ck)).isSome) :
    generate_video_from_image env post image_path prompt aspect silent_video =
      .ok ({ fromCache := some true,
             videoUrl := some (rstripSlash env.baseUrl ++ "/" ++
               ("media/video/" ++ videoFileName ck)),
             videoPath := some (videoDirPath env.basePath ++ "/" ++ videoFileName ck),
             status := some "completed",
             operationName := none, cacheKey := none, done := none }, false) := by
  obtain ⟨srcBytes, hsb⟩ := Option.isSome_iff_exists.mp hsrc
  obtain ⟨cacheBytes, hcb⟩ := Option.isSome_iff_exists.mp hcache
  unfold generate_video_from_image get_cached_video
  simp only [hkey, if_neg, if_false, hsb, hck, hcb]

/-- Environment of the C5 witness: the resolved source image and the cached
video file both exist. -/
def wEnv5 : VEnv :=
  { apiKey := "K", basePath := "/app", baseUrl := "https://h.test",
    fs := fun p =>
      if p = "/app/pub/media/img.jpg" then some [1, 2]
      else if p = "/app/pub/media/video/veo_H9.mp4" then some [9] else none,
    md5hex := fun l => "H" ++ natToStr l.length }

/-- Witness for C5: with the cache file present the call returns the cached
dict and performs no API request. -/
theorem C5_cache_hit_skips_api_witness :
    generate_video_from_image wEnv5 ⟨200, some "operations/1", some false⟩
        "img.jpg" "p" "16:9" false =
      .ok ({ fromCache := some true,
             videoUrl := some (rstripSlash wEnv5.baseUrl ++ "/" ++
               ("media/video/" ++ videoFileName "H9")),
             videoPath := some (videoDirPath wEnv5.basePath ++ "/" ++
               videoFileName "H9"),
             status := some "completed",
             operationName := none, cacheKey := none, done := none }, false) :=
  C5_cache_hit_skips_api wEnv5 ⟨200, some "operations/1", some false⟩
    "img.jpg" "p" "16:9" false "H9" (by decide) (by decide) (by decide) (by decide)

/-- C8: every mock-server operation created by a `:predictLongRunning` POST
follows the two-state lifecycle pending-then-done: it is stored not-done;
every poll made less than 5 seconds after creation returns `done: false`
with no response payload; every poll 5 or more seconds after creation
returns `done: true` together with a generated-sample response (image or
video, each with a non-empty samples list); and a poll never reports the
operation as not done after any poll has reported it done. -/
theorem C8_mock_two_state_lifecycle (host : String) (port : Nat)
    (operation_id : String) (payload : MockPayload) (t0 : Nat) :
    (mockCreateOperation operation_id payload t0).done = false ∧
    (∀ t m, t - t0 < 5 →
      mockPollResponse host port (mockCreateOperation operation_id payload t0) t m =
        { name := "operations/" ++ operation_id, done := false, response := none }) ∧
    (∀ t m, 5 ≤ t - t0 →
      (mockPollResponse host port (mockCreateOperation operation_id payload t0) t m).done
          = true ∧
      ∃ body g,
        (mockPollResponse host port (mockCreateOperation operation_id payload t0) t m).response
            = some body ∧
        (body.generateImageResponse = some g ∨ body.generateVideoResponse = some g) ∧
        g.generatedSamples ≠ []) ∧
    (∀ t1 t2 m1 m2, t1 ≤ t2 →
      (mockPollResponse host port (mockCreateOperation operation_id payload t0) t1 m1).done
          = true →
      (mockPollResponse host port (mockCreateOperation operation_id payload t0) t2 m2).done
          = true) := by
  refine ⟨rfl, ?_, ?_, ?_⟩
  · intro t m ht
    simp [mockPollResponse, mockCreateOperation, ht]
  · intro t m ht
    have ht' : ¬ t - t0 < 5 := by omega
    unfold mockPollResponse
    simp only [mockCreateOperation, ht', if_neg, if_false, not_false_eq_true]
    by_cases hi : (match payload.instances.head? with
        | some i => i.modelImage.isSome && i.lookImage.isSome
        | none => false) = true
    · simp only [hi, if_true]
      refine ⟨trivial, ?_⟩
      refine ⟨_, _, rfl, Or.inl rfl, ?_⟩
      simp
    · simp only [hi, Bool.false_eq_true, if_neg, not_false_eq_true]
      refine ⟨trivial, ?_⟩
      refine ⟨_, _, rfl, Or.inr rfl, ?_⟩
      simp
  · intro t1 t2 m1 m2 hle hdone
    have h1 : ¬ t1 - t0 < 5 := by
      intro hlt
      rw [(by simp [mockPollResponse, mockCreateOperation, hlt] :
        (mockPollResponse host port (mockCreateOperation operation_id payload t0) t1 m1).done
          = false)] at hdone
      exact Bool.false_ne_true hdone
    have h2 : ¬ t2 - t0 < 5 := by
      have := Nat.sub_le_sub_right hle t0
      omega
    unfold mockPollResponse
    simp only [mockCreateOperation, h2, if_neg, if_false, not_false_eq_true]
    by_cases hi : (match payload.instances.head? with
        | some i => i.modelImage.isSome && i.lookImage.isSome
        | none => false) = true
    · simp [hi]
    · simp [hi]

/-- Witness for C8 at a concrete operation created at time 100, polled at
times 103 (pending), 105 (done) and 106 (still done, via monotonicity). -/
theorem C8_mock_two_state_lifecycle_witness :
    mockPollResponse "127.0.0.1" 8080 (mockCreateOperation "u1" ⟨[]⟩ 100) 103 "m1" =
      { name := "operations/u1", done := false, response := none } ∧
    (mockPollResponse "127.0.0.1" 8080 (mockCreateOperation "u1" ⟨[]⟩ 100) 105 "m2").done
        = true ∧
    (mockPollResponse "127.0.0.1" 8080 (mockCreateOperation "u1" ⟨[]⟩ 100) 106 "m3").done
        = true :=
  have h := C8_mock_two_state_lifecycle "127.0.0.1" 8080 "u1" ⟨[]⟩ 100
  ⟨h.2.1 103 "m1" (by decide),
   (h.2.2.1 105 "m2" (by decide)).1,
   h.2.2.2 105 106 "m2" "m3" (by decide) ((h.2.2.1 105 "m2" (by decide)).1)⟩

/-- C10: save_asset_from_operation raises a RuntimeError when the operation
response contains no generated samples; raises a RuntimeError when the
first sample carries neither (truthy) inline image data nor a (truthy)
video/image URI; and when the first sample carries non-empty inline image
data, that data is written directly to `<output_dir>/<name>.jpg` with no
HTTP download performed (the fetched-URL log is empty). -/
theorem C10_save_asset_errors_and_inline (env : ImgEnv)
    (fetch : String → HttpBytes) (now : Nat) (od : ABOpData)
    (ck : Option String) :
    (abSamples od = [] →
      save_asset_from_operation env fetch now od ck =
        .error (.runtime "No generated samples found in operation response")) ∧
    (∀ s rest, abSamples od = s :: rest →
      bytesTruthy (match s.image with
                   | some ia => ia.data
                   | none => none) = false →
      strTruthy (pyOrStr
          (match s.video with
           | some v => v.uri
           | none => none)
          (match s.image with
           | some ia => ia.uri
           | none => none)) = false →
      save_asset_from_operation env fetch now od ck =
        .error (.runtime "No URI or data found for generated asset")) ∧
    (∀ s rest ia d, abSamples od = s :: rest → s.image = some ia →
      ia.data = some d → d ≠ [] →
      save_asset_from_operation env fetch now od ck =
        .ok (imgOutputDir env ++ "/" ++ assetSaveName ck now ++ ".jpg",
             [(imgOutputDir env ++ "/" ++ assetSaveName ck now ++ ".jpg", d)],
             [])) := by
  refine ⟨?_, ?_, ?_⟩
  · intro h
    unfold save_asset_from_operation
    rw [h]
    rfl
  · intro s rest h hbd hu
    unfold save_asset_from_operation
    rw [h]
    simp only [hbd, Bool.false_eq_true, if_neg, not_false_eq_true, hu]
    rfl
  · intro s rest ia d h hi hd hne
    unfold save_asset_from_operation
    rw [h]
    have hbd : bytesTruthy (match s.image with
                            | some ia => ia.data
                            | none => none) = true := by
      rw [hi]
      simp [bytesTruthy, hd, hne]
    simp only [hbd, if_true]
    rw [hi]
    simp only [hd]
    rfl

/-- Operation body with one inline-data sample used by the C10 witness. -/
def wOpInline : ABOpData :=
  ⟨some true, some ⟨none, some ⟨some [⟨some ⟨some [5, 6], none⟩, none⟩]⟩⟩⟩

/-- Operation body with no samples used by the C10 witness. -/
def wOpEmpty : ABOpData := ⟨some true, some ⟨none, some ⟨some []⟩⟩⟩

/-- Operation body whose sample has neither data nor URI, for the C10
witness. -/
def wOpBare : ABOpData :=
  ⟨some true, some ⟨none, some ⟨some [⟨some ⟨none, some ""⟩, some ⟨none⟩⟩]⟩⟩⟩

/-- Image-service environment of the C10 witness. -/
def wIEnv : ImgEnv := ⟨"K", "http://b", "pub/media", none⟩

/-- Witness for C10 at three concrete operation bodies: empty samples,
sample without data or URI, and sample with inline data. -/
theorem C10_save_asset_errors_and_inline_witness :
    save_asset_from_operation wIEnv wFetch 77 wOpEmpty (some "n1") =
      .error (.runtime "No generated samples found in operation response") ∧
    save_asset_from_operation wIEnv wFetch 77 wOpBare (some "n1") =
      .error (.runtime "No URI or data found for generated asset") ∧
    save_asset_from_operation wIEnv wFetch 77 wOpInline (some "n1") =
      .ok (imgOutputDir wIEnv ++ "/" ++ assetSaveName (some "n1") 77 ++ ".jpg",
           [(imgOutputDir wIEnv ++ "/" ++ assetSaveName (some "n1") 77 ++ ".jpg",
             [5, 6])],
           []) :=
  ⟨(C10_save_asset_errors_and_inline wIEnv wFetch 77 wOpEmpty (some "n1")).1
     (by decide),
   (C10_save_asset_errors_and_inline wIEnv wFetch 77 wOpBare (some "n1")).2.1
     ⟨some ⟨none, some ""⟩, some ⟨none⟩⟩ [] (by decide) (by decide) (by decide),
   (C10_save_asset_errors_and_inline wIEnv wFetch 77 wOpInline (some "n1")).2.2
     ⟨some ⟨some [5, 6], none⟩, none⟩ [] ⟨some [5, 6], none⟩ [5, 6]
     (by decide) (by decide) (by decide) (by decide)⟩

/-- Characters surviving collapseUnderscores come from the input list. -/
theorem mem_collapseUnderscores : ∀ l c, c ∈ collapseUnderscores l → c ∈ l
  | [], c, h => by simp [collapseUnderscores] at h
  | [a], c, h => by simpa [collapseUnderscores] using h
  | a :: b :: rest, c, h => by
    unfold collapseUnderscores at h
    by_cases hab : a = '_' ∧ b = '_'
    · rw [if_pos hab] at h
      exact List.mem_cons_of_mem a (mem_collapseUnderscores (b :: rest) c h)
    · rw [if_neg hab] at h
      rcases List.mem_cons.mp h with heq | h2
      · exact heq ▸ List.mem_cons_self a (b :: rest)
      · exact List.mem_cons_of_mem a (mem_collapseUnderscores (b :: rest) c h2)

/-- Characters surviving stripUnderscores come from the input list. -/
theorem mem_stripUnderscores (l : List Char) (c : Char)
    (h : c ∈ stripUnderscores l) : c ∈ l := by
  unfold stripUnderscores at h
  rw [List.mem_reverse] at h
  have h2 := (List.dropWhile_sublist _).mem h
  rw [List.mem_reverse] at h2
  exact (List.dropWhile_sublist _).mem h2

/-- Characters of subNonWordHyphen output are word characters, a hyphen, or
the replacement underscore. -/
theorem mem_subNonWordHyphen (pw : Char → Bool) (l : List Char) (c : Char)
    (h : c ∈ subNonWordHyphen pw l) :
    pw c = true ∨ c = '-' ∨ c = '_' := by
  unfold subNonWordHyphen at h
  obtain ⟨x, _, hx⟩ := List.mem_map.mp h
  by_cases hgood : pw x || x = '-'
  · rw [if_pos hgood] at hx
    subst hx
    rcases Bool.or_eq_true_iff.mp hgood with h1 | h1
    · exact Or.inl h1
    · exact Or.inr (Or.inl (by simpa using h1))
  · rw [if_neg hgood] at hx
    exact Or.inr (Or.inr hx.symm)

/-- The decimal character of a digit value is a digit character. -/
theorem ofNat_digit_isDigit (d : Nat) (hd : d < 10) :
    (Char.ofNat (48 + d)).isDigit = true := by
  interval_cases d <;> decide

/-- Every character produced by the fuel-indexed decimal conversion is a
digit. -/
theorem natToCharsAux_digits :
    ∀ fuel n c, c ∈ natToCharsAux fuel n → c.isDigit = true
  | 0, n, c, h => by simp [natToCharsAux] at h
  | fuel + 1, n, c, h => by
    unfold natToCharsAux at h
    by_cases hn : n < 10
    · rw [if_pos hn] at h
      rcases List.mem_singleton.mp h with rfl
      exact ofNat_digit_isDigit n hn
    · rw [if_neg hn] at h
      rcases List.mem_append.mp h with h1 | h1
      · exact natToCharsAux_digits fuel (n / 10) c h1
      · rcases List.mem_singleton.mp h1 with rfl
        exact ofNat_digit_isDigit (n % 10) (Nat.mod_lt n (by omega))

/-- Every character of the decimal representation of a natural number is a
digit. -/
theorem natToChars_digits (n : Nat) (c : Char) (h : c ∈ natToChars n) :
    c.isDigit = true :=
  natToCharsAux_digits (n + 1) n c h

/-- A digit character is alphanumeric. -/
theorem isDigit_isAlphanum (c : Char) (h : c.isDigit = true) :
    (c.isAlphanum || c = '_') = true := by
  simp [Char.isAlphanum, h]

/-- Word-character predicate of the C9 counterexample: ASCII alphanumerics,
the underscore, and the letter `é` (U+00E9). Python's `re` module matches
`\w` against all Unicode word characters by default, so `\w` matches `é`;
this predicate is the restriction of that external Unicode class to the
characters the counterexample input contains. -/
def pwCex : Char → Bool :=
  fun c => c.isAlphanum || c = '_' || c = 'é'

/-- Counterexample to C9 as stated: for the input image `café.jpg` the
result is `café_1000`, which contains the character `é` — a character that
is neither an ASCII letter nor a digit nor an underscore nor a hyphen.
Python's Unicode `\w` class keeps non-ASCII word characters, so the result
is not ASCII-only. -/
theorem C9_counterexample :
    generate_descriptive_filename pwCex "café.jpg" none "a" 1000 = "café_1000" ∧
    'é' ∈ (generate_descriptive_filename pwCex "café.jpg" none "a" 1000).toList ∧
    ¬ ('é'.isAlpha = true ∨ 'é'.isDigit = true ∨ 'é' = '_' ∨ 'é' = '-') := by
  decide

/-- A string built from a list ending in a cons is not empty. -/
theorem stringMk_append_cons_ne_empty (p : List Char) (c : Char)
    (q : List Char) : String.mk (p ++ c :: q) ≠ "" := by
  intro h
  have h2 : (p ++ c :: q) = ([] : List Char) := congrArg String.data h
  simp at h2

/-- C9 (amended): for every pair of input image paths or URLs and every
prompt, generate_descriptive_filename returns a non-empty filesystem-safe
string: every character of the result is a word character of Python's `\w`
class (which contains all ASCII letters, digits and the underscore, but
also non-ASCII word characters) or a hyphen — in particular no spaces,
dots, slashes or other path separators — and the name ends with the Unix
timestamp taken at call time. The predicate `pw` is Python's `\w` class,
assumed to contain the ASCII word characters and to exclude `'/'`, `'.'`
and `' '`. -/
theorem C9_filename_word_safe (pw : Char → Bool) (image1 : String)
    (image2 : Option String) (prompt : String) (timestamp : Nat)
    (hpw : ∀ c : Char, (c.isAlphanum || c = '_') = true → pw c = true)
    (hslash : pw '/' = false) (hdot : pw '.' = false)
    (hspace : pw ' ' = false) :
    generate_descriptive_filename pw image1 image2 prompt timestamp ≠ "" ∧
    (∀ c ∈ (generate_descriptive_filename pw image1 image2 prompt timestamp).toList,
      pw c = true ∨ c = '-') ∧
    (∀ c ∈ (generate_descriptive_filename pw image1 image2 prompt timestamp).toList,
      c ≠ '/' ∧ c ≠ '.' ∧ c ≠ ' ') ∧
    (∃ p, (generate_descriptive_filename pw image1 image2 prompt timestamp).toList =
      p ++ '_' :: natToChars timestamp) := by
  have hunder : pw '_' = true := hpw '_' (by decide)
  have key : ∃ cb : List Char, (∀ c ∈ cb, pw c = true ∨ c = '-') ∧
      generate_descriptive_filename pw image1 image2 prompt timestamp =
        (if (cb ++ '_' :: natToChars timestamp).length > 100 then
          String.mk ((cb ++ '_' :: natToChars timestamp).take 95 ++
            '_' :: natToChars timestamp)
        else String.mk (cb ++ '_' :: natToChars timestamp)) := by
    refine ⟨stripUnderscores (collapseUnderscores
      (subNonWordHyphen pw (gdfCombinedRaw pw image1 image2 prompt))), ?_, rfl⟩
    intro c hc
    have h1 := mem_subNonWordHyphen pw _ c
      (mem_collapseUnderscores _ c (mem_stripUnderscores _ c hc))
    rcases h1 with h | h | h
    · exact Or.inl h
    · exact Or.inr h
    · subst h
      exact Or.inl hunder
  obtain ⟨cb, hcbmem, heq⟩ := key
  have hfnmem : ∀ c ∈ cb ++ '_' :: natToChars timestamp, pw c = true ∨ c = '-' := by
    intro c hc
    rcases List.mem_append.mp hc with h | h
    · exact hcbmem c h
    · rcases List.mem_cons.mp h with rfl | h2
      · exact Or.inl hunder
      · exact Or.inl (hpw c (isDigit_isAlphanum c (natToChars_digits timestamp c h2)))
  have hsep : ∀ c : Char, (pw c = true ∨ c = '-') → c ≠ '/' ∧ c ≠ '.' ∧ c ≠ ' ' := by
    intro c hc
    rcases hc with h | h
    · refine ⟨?_, ?_, ?_⟩
      · intro hcontra
        rw [hcontra, hslash] at h
        exact Bool.false_ne_true h
      · intro hcontra
        rw [hcontra, hdot] at h
        exact Bool.false_ne_true h
      · intro hcontra
        rw [hcontra, hspace] at h
        exact Bool.false_ne_true h
    · subst h
      exact ⟨by decide, by decide, by decide⟩
  rw [heq]
  by_cases hlen : (cb ++ '_' :: natToChars timestamp).length > 100
  · rw [if_pos hlen]
    have hmemL : ∀ c ∈ ((cb ++ '_' :: natToChars timestamp).take 95 ++
        '_' :: natToChars timestamp), pw c = true ∨ c = '-' := by
      intro c hc
      rcases List.mem_append.mp hc with h | h
      · exact hfnmem c ((List.take_sublist 95 _).mem h)
      · rcases List.mem_cons.mp h with rfl | h2
        · exact Or.inl hunder
        · exact Or.inl (hpw c (isDigit_isAlphanum c (natToChars_digits timestamp c h2)))
    refine ⟨stringMk_append_cons_ne_empty _ _ _, ?_, ?_, ?_⟩
    · intro c hc
      exact hmemL c hc
    · intro c hc
      exact hsep c (hmemL c hc)
    · exact ⟨(cb ++ '_' :: natToChars timestamp).take 95, rfl⟩
  · rw [if_neg hlen]
    refine ⟨stringMk_append_cons_ne_empty _ _ _, ?_, ?_, ?_⟩
    · intro c hc
      exact hfnmem c hc
    · intro c hc
      exact hsep c (hfnmem c hc)
    · exact ⟨cb, rfl⟩

/-- Witness for C9 (amended) at a concrete word-character predicate (ASCII
word characters plus `é`) and concrete inputs. -/
theorem C9_filename_word_safe_witness :
    generate_descriptive_filename pwCex "café.jpg" none "a" 1000 ≠ "" ∧
    (∀ c ∈ (generate_descriptive_filename pwCex "café.jpg" none "a" 1000).toList,
      pwCex c = true ∨ c = '-') ∧
    (∀ c ∈ (generate_descriptive_filename pwCex "café.jpg" none "a" 1000).toList,
      c ≠ '/' ∧ c ≠ '.' ∧ c ≠ ' ') ∧
    (∃ p, (generate_descriptive_filename pwCex "café.jpg" none "a" 1000).toList =
      p ++ '_' :: natToChars 1000) :=
  C9_filename_word_safe pwCex "café.jpg" none "a" 1000
    (fun c hc => by
      unfold pwCex
      rw [hc]
      rfl)
    (by decide) (by decide) (by decide)
